import Mathlib

/-!
Verification development for the Tatkal ticket-booking automation.

Shallow embedding of the repository's data model and control flow:
* `src/src/types/index.ts` — `Passenger`, `ContactDetails`, `PaymentDetails`,
  `JourneyConfig`, `BrowserConfig`, `WhatsAppConfig`, `AppConfig`, `TicketData`.
* `src/src/config/index.ts` — `Config.loadConfig`, `validateRequiredEnvVars`,
  `loadPassengers`, and the `main` entry point's exit-status behaviour.
* `src/src/services/BrowserService` (TypeScript variant, `src/unnamed/part_002`) —
  session state, the driver primitives and their "Browser not initialized"
  guards, `close`, and the keyboard-level semantics of `typeText`.
* `src/src/services/IRCTCAutomationService.ts` — `executeBooking`'s eleven-step
  sequence, `fillPassengerDetails`'s positional rows, `generateTickets`,
  `loginToIRCTC` and `proceedToPayment` action traces.
* `src/src/services/PDFService.generateMultipleTickets` and
  `src/src/services/WhatsAppService.sendMultipleNotifications` — the
  continue-on-error per-item batches.

External effects (the puppeteer engine, the file system, the target site) are
modelled by explicit outcome parameters threaded through the definitions.
-/

namespace Tatkal

/-! ## Data model (src/src/types/index.ts) -/

/-- Gender code, the TS union type `'M' | 'F'`. -/
inductive Gender where
  | M : Gender
  | F : Gender
deriving DecidableEq, Repr

/-- The string value the TS code carries for a gender (`'M'` / `'F'`). -/
def Gender.code : Gender → String
  | .M => "M"
  | .F => "F"

/-- `Passenger` interface: name, age (string form), gender code. -/
structure Passenger where
  name : String
  age : String
  gender : Gender
deriving DecidableEq, Repr

/-- `ContactDetails` interface. -/
structure ContactDetails where
  contact : String
  address : String
  pin : String
deriving DecidableEq, Repr

/-- `PaymentDetails` interface. -/
structure PaymentDetails where
  cardNo : String
  expiry : String
  cvv : String
  name : String
deriving DecidableEq, Repr

/-- `JourneyConfig` interface (`from`/`to` are Lean keywords, rendered
`fromStation`/`toStation`). -/
structure JourneyConfig where
  fromStation : String
  toStation : String
  date : String
  passengers : List Passenger
  contactDetails : ContactDetails
  paymentDetails : PaymentDetails
deriving DecidableEq, Repr

/-- Viewport dimensions inside `BrowserConfig`. -/
structure Viewport where
  width : Nat
  height : Nat
deriving DecidableEq, Repr

/-- `BrowserConfig` interface; `timeout` is `Option Int` because it is the
result of a JavaScript `parseInt`, which can be `NaN` (modelled `none`). -/
structure BrowserConfig where
  headless : Bool
  timeout : Option Int
  viewport : Viewport
deriving DecidableEq, Repr

/-- `WhatsAppConfig` interface. -/
structure WhatsAppConfig where
  enabled : Bool
  timeout : Option Int
deriving DecidableEq, Repr

/-- The `irctc` credential record of `AppConfig`. -/
structure IrctcCredentials where
  userId : String
  password : String
deriving DecidableEq, Repr

/-- `AppConfig` interface. -/
structure AppConfig where
  irctc : IrctcCredentials
  journey : JourneyConfig
  browser : BrowserConfig
  whatsapp : WhatsAppConfig
deriving DecidableEq, Repr

/-- `TicketData` interface (one PDF ticket record). -/
structure TicketData where
  passengerName : String
  age : String
  gender : String
  fromStation : String
  toStation : String
  transactionId : String
  pnrNumber : String
deriving DecidableEq, Repr

/-! ## Configuration loading (src/src/config/index.ts) -/

/-- An OS environment: variable name to optional value (`none` = unset). -/
def OsEnv : Type := String → Option String

/-- JavaScript truthiness of `process.env[v]`: `undefined` and the empty
string are falsy, every other string is truthy. -/
def envTruthy : Option String → Bool
  | none => false
  | some s => !(s == "")

/-- JavaScript `process.env[v] === lit` comparison. -/
def envEq (v : Option String) (lit : String) : Bool :=
  match v with
  | none => false
  | some s => s == lit

/-- JavaScript `v || d` over an optional environment string: unset or empty
falls back to the default. -/
def orDefault (v : Option String) (d : String) : String :=
  match v with
  | none => d
  | some s => if s == "" then d else s

/-- JavaScript `parseInt` on a string: trims, reads an optional sign and a
decimal-digit prefix; no digits means `NaN`, modelled `none`. -/
def parseIntJS (s : String) : Option Int :=
  let t := s.trim
  let signBody : Int × List Char :=
    match t.toList with
    | '-' :: rest => (-1, rest)
    | '+' :: rest => (1, rest)
    | l => (1, l)
  let digits := signBody.2.takeWhile (fun c => c.isDigit)
  if digits.isEmpty then none
  else some (signBody.1 * (Int.ofNat (digits.foldl (fun acc c => acc * 10 + (c.toNat - 48)) 0)))

/-- `validateRequiredEnvVars`'s list of required variable names. -/
def requiredVars : List String :=
  ["IRCTC_USER_ID", "IRCTC_PASSWORD", "FROM_STATION", "TO_STATION",
   "JOURNEY_DATE", "CONTACT_NUMBER", "ADDRESS", "PIN_CODE",
   "CARD_NUMBER", "CARD_EXPIRY", "CARD_CVV", "CARD_HOLDER_NAME"]

/-- `Config.loadPassengers`: the hardcoded sample passenger list. It reads no
environment variable. -/
def loadPassengers : List Passenger :=
  [{ name := "Phoolan Devi", age := "45", gender := Gender.F },
   { name := "Ghansidas Pandey", age := "50", gender := Gender.M },
   { name := "Maindak Prasad", age := "24", gender := Gender.M },
   { name := "Anguri Devi", age := "20", gender := Gender.F }]

/-- `Config.loadConfig`: validates required variables (throwing, modelled
`Except.error`, when any is missing/empty) and assembles the `AppConfig`. -/
def loadConfig (env : OsEnv) : Except String AppConfig :=
  let missingVars := requiredVars.filter (fun v => !(envTruthy (env v)))
  if !missingVars.isEmpty then
    .error ("Missing required environment variables: " ++ String.intercalate ", " missingVars)
  else
    .ok
      { irctc :=
          { userId := (env "IRCTC_USER_ID").getD ""
            password := (env "IRCTC_PASSWORD").getD "" }
        journey :=
          { fromStation := (env "FROM_STATION").getD ""
            toStation := (env "TO_STATION").getD ""
            date := (env "JOURNEY_DATE").getD ""
            passengers := loadPassengers
            contactDetails :=
              { contact := (env "CONTACT_NUMBER").getD ""
                address := (env "ADDRESS").getD ""
                pin := (env "PIN_CODE").getD "" }
            paymentDetails :=
              { cardNo := (env "CARD_NUMBER").getD ""
                expiry := (env "CARD_EXPIRY").getD ""
                cvv := (env "CARD_CVV").getD ""
                name := (env "CARD_HOLDER_NAME").getD "" } }
        browser :=
          { headless := envEq (env "HEADLESS") "true"
            timeout := parseIntJS (orDefault (env "BROWSER_TIMEOUT") "100000")
            viewport := { width := 1920, height := 1080 } }
        whatsapp :=
          { enabled := envEq (env "WHATSAPP_ENABLED") "true"
            timeout := parseIntJS (orDefault (env "WHATSAPP_TIMEOUT") "30000") } }

/-! ## BrowserService session state and driver primitives
(src/src/services/BrowserService, TypeScript variant in src/unnamed/part_002) -/

/-- The `browser`/`page` nullable fields of `BrowserService`; `true` models a
non-null reference. -/
structure BState where
  browser : Bool
  page : Bool
deriving DecidableEq, Repr

/-- Domain errors a driver primitive can raise (`AppError` messages). -/
inductive BErr where
  | notInitialized : BErr
  | initFailed : BErr
  | navigationFailed (url : String) : BErr
  | clickFailed (sel : String) : BErr
  | typeFailed (sel : String) : BErr
  | newPageFailed : BErr
deriving DecidableEq, Repr

/-- `BrowserService.initialize`: on engine success both references are set;
on engine failure the error is wrapped and neither reference is set. -/
def initBrowser (launchOk : Bool) : BState × Except BErr Unit :=
  if launchOk then ({ browser := true, page := true }, .ok ())
  else ({ browser := false, page := false }, .error .initFailed)

/-- `BrowserService.navigateTo`: guard on `this.page`, then the engine
navigation (outcome `engineOk`); errors are wrapped, state untouched. -/
def navigateTo (s : BState) (url : String) (engineOk : Bool) : BState × Except BErr Unit :=
  if !s.page then (s, .error .notInitialized)
  else if engineOk then (s, .ok ())
  else (s, .error (.navigationFailed url))

/-- `BrowserService.waitAndClick`: guard on `this.page`, then wait-for-selector
and click (outcome `engineOk`). -/
def waitAndClick (s : BState) (sel : String) (engineOk : Bool) : BState × Except BErr Unit :=
  if !s.page then (s, .error .notInitialized)
  else if engineOk then (s, .ok ())
  else (s, .error (.clickFailed sel))

/-- `BrowserService.typeText` at the session level: guard on `this.page`, then
the click/select-all/type interaction (outcome `engineOk`). -/
def typeTextP (s : BState) (sel : String) (engineOk : Bool) : BState × Except BErr Unit :=
  if !s.page then (s, .error .notInitialized)
  else if engineOk then (s, .ok ())
  else (s, .error (.typeFailed sel))

/-- `BrowserService.getPage`: guard on `this.page`; pure accessor. -/
def getPage (s : BState) : BState × Except BErr Unit :=
  if !s.page then (s, .error .notInitialized) else (s, .ok ())

/-- `BrowserService.getBrowser`: guard on `this.browser`; pure accessor. -/
def getBrowser (s : BState) : BState × Except BErr Unit :=
  if !s.browser then (s, .error .notInitialized) else (s, .ok ())

/-- `BrowserService.newPage`: guard on `this.browser`, then the engine's
`browser.newPage()` (outcome `engineOk`). -/
def newPage (s : BState) (engineOk : Bool) : BState × Except BErr Unit :=
  if !s.browser then (s, .error .notInitialized)
  else if engineOk then (s, .ok ())
  else (s, .error .newPageFailed)

/-! ## Keyboard-level semantics of `typeText` on the target element

`typeText` performs: click the element, press Ctrl+A (select all), then
`page.type(selector, text)` which emits one keystroke per character of
`text`. A keystroke replaces the active selection; with no selection it
appends at the caret. -/

/-- A text input element: its content and whether a select-all selection is
active. -/
structure Field where
  content : List Char
  selectedAll : Bool
deriving DecidableEq, Repr

/-- Clicking the element focuses it and collapses any selection to a caret. -/
def clickField (f : Field) : Field :=
  { f with selectedAll := false }

/-- Ctrl+A: select the whole content. -/
def selectAllField (f : Field) : Field :=
  { f with selectedAll := true }

/-- One keystroke: replaces the selection when one is active, otherwise
appends at the end; either way the selection is gone afterwards. -/
def typeCharField (f : Field) (c : Char) : Field :=
  if f.selectedAll then { content := [c], selectedAll := false }
  else { content := f.content ++ [c], selectedAll := false }

/-- `page.type`: keystrokes for each character in order (the per-character
delay does not affect the resulting content). -/
def typeCharsField (f : Field) : List Char → Field
  | [] => f
  | c :: cs => typeCharsField (typeCharField f c) cs

/-- The full `typeText` interaction on the target element:
click, Ctrl+A, then type the text. -/
def typeTextField (f : Field) (text : String) : Field :=
  typeCharsField (selectAllField (clickField f)) text.toList

/-! ## `BrowserService.close` and its teardown semantics -/

/-- The named steps of `executeBooking` that can fail as a whole: browser
initialization, the eight driver-phase form steps, and the `newPage` call
that opens the notification context in step 11. (Step 10's per-item PDF
outcomes and step 11's per-item dispatch outcomes are separate events.) -/
inductive Step where
  | initStep : Step
  | navigateStep : Step
  | searchStep : Step
  | selectTrainStep : Step
  | loginStep : Step
  | fillPassengersStep : Step
  | fillContactStep : Step
  | proceedPaymentStep : Step
  | fillPaymentStep : Step
  | newPageStep : Step
deriving DecidableEq, Repr

/-- Position of a step in the source's fixed sequence. -/
def stepIdx : Step → Nat
  | .initStep => 1
  | .navigateStep => 2
  | .searchStep => 3
  | .selectTrainStep => 4
  | .loginStep => 5
  | .fillPassengersStep => 6
  | .fillContactStep => 7
  | .proceedPaymentStep => 8
  | .fillPaymentStep => 9
  | .newPageStep => 11

/-- Observable events of a run (step progress, per-item artifact and
notification outcomes, teardown). -/
inductive Event where
  | stepDone (s : Step) : Event
  | stepFailed (s : Step) : Event
  | genAttempt (t : TicketData) : Event
  | genSuccess (t : TicketData) (path : String) : Event
  | genFailLogged (t : TicketData) : Event
  | notifyAttempt (pname : String) : Event
  | notifySuccess (pname : String) : Event
  | notifyFailLogged (pname : String) : Event
  | closeInvoked : Event
  | browserClosed : Event
  | closeErrorLogged : Event
deriving DecidableEq, Repr

/-- `BrowserService.close`: when `this.browser` is set it calls the engine's
`browser.close()` (outcome `engineOk`) inside a try/catch — on success the
references are nulled, on failure the error is logged and NOT re-raised (and,
per the source, the references are not nulled); when `this.browser` is null it
does nothing. It never raises. -/
def closeB (s : BState) (engineOk : Bool) : BState × List Event :=
  if s.browser then
    if engineOk then ({ browser := false, page := false }, [.browserClosed])
    else (s, [.closeErrorLogged])
  else (s, [])

/-! ## Orchestrator data flow (src/src/services/IRCTCAutomationService.ts) -/

/-- `generateTickets`'s ticket construction: one `TicketData` per passenger in
list order, all carrying the journey endpoints and the hardcoded
`transactionId` / `pnrNumber` literals from the source. -/
def generateTickets (j : JourneyConfig) : List TicketData :=
  j.passengers.map fun p =>
    { passengerName := p.name
      age := p.age
      gender := p.gender.code
      fromStation := j.fromStation
      toStation := j.toStation
      transactionId := "0095562596"
      pnrNumber := "6422380568" }

/-- One positional passenger-form row as written by `fillPassengerDetails`:
the source's `passengerIndex` (DOM `nth-child` index, 1-based) and the three
sub-field values typed into that row. -/
structure RowFill where
  rowIndex : Nat
  name : String
  age : String
  gender : String
deriving DecidableEq, Repr

/-- The row writes of `fillPassengerDetails`'s second loop, starting at loop
counter `k`: passenger at loop counter `i` goes to row `i + 1`. -/
def fillRowsFrom (k : Nat) : List Passenger → List RowFill
  | [] => []
  | p :: rest =>
    { rowIndex := k + 1, name := p.name, age := p.age, gender := p.gender.code }
      :: fillRowsFrom (k + 1) rest

/-- All positional row writes of `fillPassengerDetails` (loop counter from 0). -/
def fillPassengerRows (ps : List Passenger) : List RowFill :=
  fillRowsFrom 0 ps

/-- `PDFService.generateMultipleTickets`: iterates the ticket list, attempting
each generation (`gen`, the external PDF/file-system effect) inside a
try/catch; a failure is logged and the loop continues; returns the file paths
of the successful generations in order, plus the event trace. -/
def generateMultipleTickets (gen : TicketData → Except String String) :
    List TicketData → List String × List Event
  | [] => ([], [])
  | t :: rest =>
    let tail := generateMultipleTickets gen rest
    match gen t with
    | .ok fp => (fp :: tail.1, .genAttempt t :: .genSuccess t fp :: tail.2)
    | .error _ => (tail.1, .genAttempt t :: .genFailLogged t :: tail.2)

/-- `WhatsAppService.sendMultipleNotifications`: iterates the passenger list,
attempting each dispatch (`send`, the external channel effect) inside a
try/catch; a failure is logged and the loop continues. -/
def sendMultipleNotifications (send : String → Except String Unit) :
    List Passenger → List Event
  | [] => []
  | p :: rest =>
    (match send p.name with
     | .ok _ => [.notifyAttempt p.name, .notifySuccess p.name]
     | .error _ => [.notifyAttempt p.name, .notifyFailLogged p.name])
      ++ sendMultipleNotifications send rest

/-- Environment of one run: outcome of each whole step's external interaction,
the per-item artifact and dispatch outcomes, the engine outcome of teardown,
and the transaction/reservation pair the external site would display for this
purchase (the source never reads the latter; it is carried to express that). -/
structure RunEnv where
  stepOk : Step → Bool
  gen : TicketData → Except String String
  send : String → Except String Unit
  closeOk : Bool
  siteTransactionId : String
  sitePnr : String

/-- The eight driver-phase form steps between browser initialization and
ticket generation, in source order. -/
def driverSteps : List Step :=
  [.navigateStep, .searchStep, .selectTrainStep, .loginStep,
   .fillPassengersStep, .fillContactStep, .proceedPaymentStep, .fillPaymentStep]

/-- The fail-fast steps: session open through payment submission. -/
def failFastSteps : List Step := Step.initStep :: driverSteps

/-- Run a list of fail-fast steps in order: the first failing step aborts with
its identity; no step is retried. -/
def runDriverSteps (env : RunEnv) : List Step → List Event × Except Step Unit
  | [] => ([], .ok ())
  | s :: rest =>
    if env.stepOk s then
      let tail := runDriverSteps env rest
      (.stepDone s :: tail.1, tail.2)
    else ([.stepFailed s], .error s)

/-- Result of `executeBooking`: the event trace, the final browser state, the
tickets built in step 10, the PDF paths returned, and the propagated result. -/
structure RunOut where
  trace : List Event
  bstate : BState
  tickets : List TicketData
  files : List String
  result : Except Step Unit

/-- The `try` block of `executeBooking`: steps 1–9 fail-fast; step 10 builds
the tickets and runs the continue-on-error PDF batch; step 11 opens the
notification page (which can fail as a whole) and runs the continue-on-error
dispatch batch. -/
def runBody (env : RunEnv) (cfg : AppConfig) : RunOut :=
  if !env.stepOk .initStep then
    { trace := [.stepFailed .initStep], bstate := { browser := false, page := false },
      tickets := [], files := [], result := .error .initStep }
  else
    let live : BState := { browser := true, page := true }
    let driven := runDriverSteps env driverSteps
    match driven.2 with
    | .error s =>
      { trace := .stepDone .initStep :: driven.1, bstate := live,
        tickets := [], files := [], result := .error s }
    | .ok _ =>
      let tickets := generateTickets cfg.journey
      let generated := generateMultipleTickets env.gen tickets
      if !env.stepOk .newPageStep then
        { trace := .stepDone .initStep :: (driven.1 ++ generated.2 ++ [.stepFailed .newPageStep]),
          bstate := live, tickets := tickets, files := generated.1,
          result := .error .newPageStep }
      else
        let notified := sendMultipleNotifications env.send cfg.journey.passengers
        { trace := .stepDone .initStep ::
            (driven.1 ++ generated.2 ++ .stepDone .newPageStep :: notified),
          bstate := live, tickets := tickets, files := generated.1, result := .ok () }

/-- `executeBooking`: the `try` body, then the `finally` block which always
invokes `BrowserService.close` exactly once; the body's outcome (success or
rethrown error) is what the caller observes, teardown errors being swallowed
inside `close`. -/
def executeBooking (env : RunEnv) (cfg : AppConfig) : RunOut :=
  let body := runBody env cfg
  let closed := closeB body.bstate env.closeOk
  { body with trace := body.trace ++ .closeInvoked :: closed.2, bstate := closed.1 }

/-- The `main` entry point's exit status (src/src/config/index.ts lines
161–187): configuration load failure or a rethrown `executeBooking` error is
caught and the process exits 1; normal completion exits 0. -/
def mainExit (osEnv : OsEnv) (env : RunEnv) : Nat :=
  match loadConfig osEnv with
  | .error _ => 1
  | .ok cfg =>
    match (executeBooking env cfg).result with
    | .ok _ => 0
    | .error _ => 1

/-! ## UI-action traces of the two manual-checkpoint steps -/

/-- A primitive UI action issued by a form step. -/
inductive UIAction where
  | click (sel : String) : UIAction
  | typeT (sel : String) (text : String) : UIAction
  | waitMs (n : Nat) : UIAction
  | keyPress (k : String) : UIAction
deriving DecidableEq, Repr

/-- `loginToIRCTC`'s action sequence: fill the credentials, pause 10000 ms
for manual captcha entry, then click the login submit button. -/
def loginActions (userId password : String) : List UIAction :=
  [.click "#userId", .typeT "#userId" userId,
   .click "#pwd", .typeT "#pwd" password,
   .waitMs 10000,
   .click ".search_btn.train_Search"]

/-- `proceedToPayment`'s action sequence: pause 15000 ms for manual captcha
entry, then the three clicks through to the payment gateway. -/
def proceedActions : List UIAction :=
  [.waitMs 15000,
   .click ".train_Search.btnDefault",
   .click "div.col-pad.col-xs-12.bank-text",
   .click ".btn.btn-primary.hidden-xs.ng-star-inserted"]

/-- Duration of an action: `wait(ms)` suspends for exactly its argument,
unconditionally (it is a plain timer, reading no input and no page state);
every other action takes whatever time the environment `other` assigns. -/
def actionTime (other : UIAction → Nat) : UIAction → Nat
  | .waitMs n => n
  | a => other a

/-- Time elapsed before the `k`-th action of a trace starts, under the
duration environment `other`. -/
def elapsedBefore (other : UIAction → Nat) (l : List UIAction) (k : Nat) : Nat :=
  ((l.take k).map (actionTime other)).sum

/-- The fixed-duration waits occurring in an action trace, in order. -/
def waitsOf (l : List UIAction) : List Nat :=
  l.filterMap fun a =>
    match a with
    | .waitMs n => some n
    | _ => none

/-! ## Event classification and trace projections -/

/-- Step-progress events (driver-phase successes and failures). -/
def isStepEvent : Event → Bool
  | .stepDone _ => true
  | .stepFailed _ => true
  | _ => false

/-- Artifact-batch events (attempt, success, logged failure). -/
def isGenEvent : Event → Bool
  | .genAttempt _ => true
  | .genSuccess _ _ => true
  | .genFailLogged _ => true
  | _ => false

/-- Notification-batch events (attempt, success, logged failure). -/
def isNotifyEvent : Event → Bool
  | .notifyAttempt _ => true
  | .notifySuccess _ => true
  | .notifyFailLogged _ => true
  | _ => false

/-- The tickets whose generation was attempted, in trace order. -/
def attemptedTickets (evs : List Event) : List TicketData :=
  evs.filterMap fun e =>
    match e with
    | .genAttempt t => some t
    | _ => none

/-- The passenger names whose notification dispatch was attempted, in order. -/
def attemptedNames (evs : List Event) : List String :=
  evs.filterMap fun e =>
    match e with
    | .notifyAttempt n => some n
    | _ => none

/-! ## Concrete inputs used by the witnesses and counterexamples -/

/-- The spec's example journey (two passengers). -/
def demoJourney : JourneyConfig :=
  { fromStation := "NEW DELHI - NDLS"
    toStation := "HOWRAH JN - HWH"
    date := "22/04/2024"
    passengers :=
      [{ name := "Phoolan Devi", age := "45", gender := Gender.F },
       { name := "Ghansidas Pandey", age := "50", gender := Gender.M }]
    contactDetails := { contact := "9999999999", address := "12 Demo Street", pin := "110001" }
    paymentDetails := { cardNo := "4111111111111111", expiry := "12/26", cvv := "123", name := "P DEVI" } }

/-- A complete application configuration around `demoJourney`. -/
def demoConfig : AppConfig :=
  { irctc := { userId := "demoUser", password := "demoPass" }
    journey := demoJourney
    browser := { headless := false, timeout := some 100000, viewport := { width := 1920, height := 1080 } }
    whatsapp := { enabled := false, timeout := some 30000 } }

/-- A run environment in which every step and every item succeeds; the site
displays a transaction/reservation pair distinct from the hardcoded one. -/
def envSiteX : RunEnv :=
  { stepOk := fun _ => true
    gen := fun t => .ok t.passengerName
    send := fun _ => .ok ()
    closeOk := true
    siteTransactionId := "7777777777"
    sitePnr := "8888888888" }

/-- A run environment in which the login step fails and everything else
would succeed. -/
def envFailLogin : RunEnv :=
  { stepOk := fun s =>
      match s with
      | .loginStep => false
      | _ => true
    gen := fun t => .ok t.passengerName
    send := fun _ => .ok ()
    closeOk := true
    siteTransactionId := "7777777777"
    sitePnr := "8888888888" }

/-- A run environment in which every whole step succeeds but every
per-item artifact generation and notification dispatch fails. -/
def envItemFail : RunEnv :=
  { stepOk := fun _ => true
    gen := fun _ => .error "disk full"
    send := fun _ => .error "channel down"
    closeOk := true
    siteTransactionId := "7777777777"
    sitePnr := "8888888888" }

/-- An OS environment defining exactly the required variables. -/
def osEnvDemo : OsEnv := fun v =>
  if requiredVars.contains v then some "demo" else none

/-- The first ticket record of the demo journey as the source builds it. -/
def demoTicket : TicketData :=
  { passengerName := "Phoolan Devi", age := "45", gender := "F"
    fromStation := "NEW DELHI - NDLS", toStation := "HOWRAH JN - HWH"
    transactionId := "0095562596", pnrNumber := "6422380568" }

/-! ## Helper lemmas -/

lemma fillRowsFrom_length (k : Nat) (ps : List Passenger) :
    (fillRowsFrom k ps).length = ps.length := by
  induction ps generalizing k with
  | nil => rfl
  | cons p rest ih => simp [fillRowsFrom, ih]

lemma fillRowsFrom_get (k : Nat) (ps : List Passenger) (i : Nat) (h : i < ps.length)
    (h2 : i < (fillRowsFrom k ps).length) :
    (fillRowsFrom k ps).get ⟨i, h2⟩ =
      { rowIndex := k + i + 1
        name := (ps.get ⟨i, h⟩).name
        age := (ps.get ⟨i, h⟩).age
        gender := (ps.get ⟨i, h⟩).gender.code } := by
  induction ps generalizing k i with
  | nil => exact absurd h (by simp)
  | cons p rest ih =>
    cases i with
    | zero => simp [fillRowsFrom]
    | succ n =>
      have h' : n < rest.length := by simpa using h
      have h2' : n < (fillRowsFrom (k + 1) rest).length := by
        simpa [fillRowsFrom_length] using h'
      simp only [fillRowsFrom, List.get_cons_succ]
      rw [ih (k + 1) n h' h2']
      simp [RowFill.mk.injEq]
      omega

lemma attemptedTickets_gen (gen : TicketData → Except String String)
    (ts : List TicketData) :
    attemptedTickets (generateMultipleTickets gen ts).2 = ts := by
  induction ts with
  | nil => rfl
  | cons t rest ih =>
    cases hg : gen t <;>
      simp [generateMultipleTickets, hg, attemptedTickets, List.filterMap_cons] <;>
      simpa [attemptedTickets] using ih

lemma gen_files_eq_filterMap (gen : TicketData → Except String String)
    (ts : List TicketData) :
    (generateMultipleTickets gen ts).1 = ts.filterMap (fun t => (gen t).toOption) := by
  induction ts with
  | nil => rfl
  | cons t rest ih =>
    cases hg : gen t <;>
      simp [generateMultipleTickets, hg, List.filterMap_cons, Except.toOption, ih]

lemma attemptedNames_send (send : String → Except String Unit)
    (ps : List Passenger) :
    attemptedNames (sendMultipleNotifications send ps) = ps.map Passenger.name := by
  induction ps with
  | nil => rfl
  | cons p rest ih =>
    cases hs : send p.name <;>
      simp [sendMultipleNotifications, hs, attemptedNames, List.filterMap_cons] <;>
      simpa [attemptedNames] using ih

lemma typeCharsField_no_selection (l : List Char) (cs : List Char) :
    typeCharsField { content := l, selectedAll := false } cs =
      { content := l ++ cs, selectedAll := false } := by
  induction cs generalizing l with
  | nil => simp [typeCharsField]
  | cons c cs ih => simp [typeCharsField, typeCharField, ih]

/-! ## Claims -/

/-- C1: for every `JourneyRequest`, `generateTickets` builds exactly one
`TicketData` per passenger, with the `TicketData` at index `i` carrying
passenger `i`'s name, age and gender; likewise `fillPassengerDetails` writes
passenger `i`'s name, age and gender into the positional form row of DOM
index `i + 1` (the `i`-th row). -/
theorem ticket_and_row_order_preserved (j : JourneyConfig) (i : Nat)
    (h : i < j.passengers.length) :
    (generateTickets j).length = j.passengers.length ∧
    (fillPassengerRows j.passengers).length = j.passengers.length ∧
    ∀ (ht : i < (generateTickets j).length)
      (hr : i < (fillPassengerRows j.passengers).length),
      ((generateTickets j).get ⟨i, ht⟩).passengerName = (j.passengers.get ⟨i, h⟩).name ∧
      ((generateTickets j).get ⟨i, ht⟩).age = (j.passengers.get ⟨i, h⟩).age ∧
      ((generateTickets j).get ⟨i, ht⟩).gender = (j.passengers.get ⟨i, h⟩).gender.code ∧
      (fillPassengerRows j.passengers).get ⟨i, hr⟩ =
        { rowIndex := i + 1
          name := (j.passengers.get ⟨i, h⟩).name
          age := (j.passengers.get ⟨i, h⟩).age
          gender := (j.passengers.get ⟨i, h⟩).gender.code } := by
  refine ⟨by simp [generateTickets], by simp [fillPassengerRows, fillRowsFrom_length], ?_⟩
  intro ht hr
  refine ⟨?_, ?_, ?_, ?_⟩ <;>
    simp [generateTickets, fillPassengerRows, List.get_eq_getElem, List.getElem_map]
  have := fillRowsFrom_get 0 j.passengers i h (by simpa [fillPassengerRows] using hr)
  simpa [List.get_eq_getElem, Nat.zero_add] using this

/-- C1 witness: on the demo journey, passenger 1 lands in ticket 1 and row 2
(DOM index), with matching fields. -/
theorem ticket_and_row_order_preserved_witness :
    1 < demoJourney.passengers.length ∧
    ((generateTickets demoJourney).get ⟨1, by decide⟩).passengerName = "Ghansidas Pandey" ∧
    (fillPassengerRows demoJourney.passengers).get ⟨1, by decide⟩ =
      { rowIndex := 2, name := "Ghansidas Pandey", age := "50", gender := "M" } := by
  have h := ticket_and_row_order_preserved demoJourney 1 (by decide)
  have h2 := h.2.2 (by decide) (by decide)
  exact ⟨by decide, h2.1.trans rfl, h2.2.2.2.trans rfl⟩

/-- C4: both batches are continue-on-error per item: every ticket's
generation is attempted in order regardless of earlier per-item failures,
the artifact batch returns precisely the paths of the successful generations
in order, and every passenger's notification dispatch is attempted in order
regardless of earlier per-item failures. -/
theorem continue_on_error_batches (gen : TicketData → Except String String)
    (send : String → Except String Unit)
    (ts : List TicketData) (ps : List Passenger) :
    attemptedTickets (generateMultipleTickets gen ts).2 = ts ∧
    (generateMultipleTickets gen ts).1 = ts.filterMap (fun t => (gen t).toOption) ∧
    attemptedNames (sendMultipleNotifications send ps) = ps.map Passenger.name :=
  ⟨attemptedTickets_gen gen ts, gen_files_eq_filterMap gen ts, attemptedNames_send send ps⟩

/-- C7 counterexample: `typeText` on an element holding "X" with the empty
string leaves "X" in place — Ctrl+A selects the old content but typing zero
characters never overwrites it — refuting the claim's empty-string case. -/
theorem enterText_empty_string_cex :
    (typeTextField { content := String.toList "X", selectedAll := false } "").content
        = String.toList "X" ∧
    String.toList "X" ≠ String.toList "" :=
  ⟨rfl, by decide⟩

/-- C7 amended: for every target element and every *non-empty* text,
`typeText` ends with the element holding exactly the new text (select-all +
overwrite: the first keystroke replaces the old content); with the empty
string the old content remains. -/
theorem enterText_overwrites_nonempty (f : Field) (text : String) (h : text ≠ "") :
    (typeTextField f text).content = text.toList := by
  match hT : text.toList with
  | [] =>
    cases text with
    | mk d =>
      have : d = [] := hT
      subst this
      exact absurd rfl h
  | c :: cs =>
    unfold typeTextField
    rw [hT]
    simp [selectAllField, clickField, typeCharsField, typeCharField,
      typeCharsField_no_selection]

/-- C7 amended witness: overwriting "X" with "Y" yields exactly "Y". -/
theorem enterText_overwrites_nonempty_witness :
    ("Y" ≠ "") ∧
    (typeTextField { content := String.toList "X", selectedAll := false } "Y").content
        = String.toList "Y" :=
  ⟨by decide, enterText_overwrites_nonempty
    { content := String.toList "X", selectedAll := false } "Y" (by decide)⟩

/-- C9: the passenger list is the hardcoded four-passenger sample list,
returned identically by every successful configuration load, whatever the
environment variables say — the external configuration interface cannot
change it. -/
theorem passengers_hardcoded (env : OsEnv) (cfg : AppConfig)
    (h : loadConfig env = .ok cfg) :
    cfg.journey.passengers =
      [{ name := "Phoolan Devi", age := "45", gender := Gender.F },
       { name := "Ghansidas Pandey", age := "50", gender := Gender.M },
       { name := "Maindak Prasad", age := "24", gender := Gender.M },
       { name := "Anguri Devi", age := "20", gender := Gender.F }] := by
  unfold loadConfig at h
  by_cases hm : (requiredVars.filter (fun v => !(envTruthy (env v)))).isEmpty
  · rw [if_neg (by simp [hm])] at h
    cases h
    rfl
  · simp [hm] at h

/-- C9 witness: a fully populated environment loads successfully and yields
exactly the hardcoded passenger list. -/
theorem passengers_hardcoded_witness :
    ∃ cfg, loadConfig osEnvDemo = .ok cfg ∧
      cfg.journey.passengers =
        [{ name := "Phoolan Devi", age := "45", gender := Gender.F },
         { name := "Ghansidas Pandey", age := "50", gender := Gender.M },
         { name := "Maindak Prasad", age := "24", gender := Gender.M },
         { name := "Anguri Devi", age := "20", gender := Gender.F }] :=
  ⟨_, rfl, passengers_hardcoded osEnvDemo _ rfl⟩

lemma mem_generateTickets_ids (j : JourneyConfig) (t : TicketData)
    (h : t ∈ generateTickets j) :
    t.transactionId = "0095562596" ∧ t.pnrNumber = "6422380568" := by
  simp only [generateTickets, List.mem_map] at h
  obtain ⟨p, _, rfl⟩ := h
  exact ⟨rfl, rfl⟩

lemma runBody_tickets (env : RunEnv) (cfg : AppConfig) :
    (runBody env cfg).tickets = [] ∨
      (runBody env cfg).tickets = generateTickets cfg.journey := by
  cases hb : env.stepOk .initStep with
  | false => simp [runBody, hb]
  | true =>
    rcases hdr : runDriverSteps env driverSteps with ⟨tr, res⟩
    cases res with
    | error s => simp [runBody, hb, hdr]
    | ok u =>
      cases hnp : env.stepOk .newPageStep <;> simp [runBody, hb, hdr, hnp]

lemma executeBooking_tickets (env : RunEnv) (cfg : AppConfig) :
    (executeBooking env cfg).tickets = (runBody env cfg).tickets := rfl

/-- C10: every driver primitive that needs a live session guards on its
reference: with no live page (resp. browser) it returns the
"Browser not initialized" error and leaves the session state unchanged; no
primitive mutates the session state; after a successful `initialize` both
references are live and the error branch of every primitive is unreachable
until `close` tears the session down. -/
theorem driver_guard_not_initialized (s : BState) (url sel : String) (engineOk : Bool) :
    (s.page = false →
      navigateTo s url engineOk = (s, .error .notInitialized) ∧
      waitAndClick s sel engineOk = (s, .error .notInitialized) ∧
      typeTextP s sel engineOk = (s, .error .notInitialized) ∧
      getPage s = (s, .error .notInitialized)) ∧
    (s.browser = false →
      newPage s engineOk = (s, .error .notInitialized) ∧
      getBrowser s = (s, .error .notInitialized)) ∧
    ((navigateTo s url engineOk).1 = s ∧ (waitAndClick s sel engineOk).1 = s ∧
     (typeTextP s sel engineOk).1 = s ∧ (getPage s).1 = s ∧
     (getBrowser s).1 = s ∧ (newPage s engineOk).1 = s) ∧
    initBrowser true = ({ browser := true, page := true }, .ok ()) ∧
    (closeB { browser := true, page := true } true).1 = { browser := false, page := false } ∧
    (s.page = true →
      (navigateTo s url engineOk).2 ≠ .error .notInitialized ∧
      (waitAndClick s sel engineOk).2 ≠ .error .notInitialized ∧
      (typeTextP s sel engineOk).2 ≠ .error .notInitialized ∧
      (getPage s).2 ≠ .error .notInitialized) ∧
    (s.browser = true →
      (newPage s engineOk).2 ≠ .error .notInitialized ∧
      (getBrowser s).2 ≠ .error .notInitialized) := by
  obtain ⟨b, p⟩ := s
  cases b <;> cases p <;> cases engineOk <;>
    simp [navigateTo, waitAndClick, typeTextP, getPage, getBrowser, newPage,
      initBrowser, closeB]

/-- C10 witness: before initialization every primitive errors out with the
unchanged state; on a live session the error branch is not taken. -/
theorem driver_guard_not_initialized_witness :
    navigateTo { browser := false, page := false } "https://www.irctc.co.in/nget/train-search" true
        = ({ browser := false, page := false }, .error .notInitialized) ∧
    (navigateTo { browser := true, page := true } "https://www.irctc.co.in/nget/train-search" true).2
        ≠ .error .notInitialized ∧
    (newPage { browser := true, page := true } true).2 ≠ .error .notInitialized := by
  have h0 := driver_guard_not_initialized { browser := false, page := false }
    "https://www.irctc.co.in/nget/train-search" "#userId" true
  have h1 := driver_guard_not_initialized { browser := true, page := true }
    "https://www.irctc.co.in/nget/train-search" "#userId" true
  exact ⟨(h0.1 rfl).1, (h1.2.2.2.2.2.1 rfl).1, (h1.2.2.2.2.2.2 rfl).1⟩

/-- C6 counterexample: in a run whose external site displays the
transaction/reservation pair ("7777777777", "8888888888"), the tickets all
carry the locally hardcoded pair ("0095562596", "6422380568") — the
identifiers are not the ones provided by the external site. -/
theorem shared_ids_not_from_site_cex :
    (executeBooking envSiteX demoConfig).tickets.map TicketData.transactionId
        = ["0095562596", "0095562596"] ∧
    (executeBooking envSiteX demoConfig).tickets.map TicketData.pnrNumber
        = ["6422380568", "6422380568"] ∧
    envSiteX.siteTransactionId = "7777777777" ∧
    envSiteX.sitePnr = "8888888888" ∧
    ("0095562596" : String) ≠ envSiteX.siteTransactionId ∧
    ("6422380568" : String) ≠ envSiteX.sitePnr :=
  ⟨rfl, rfl, rfl, rfl, by decide, by decide⟩

/-- C6 amended: all `TicketData` produced in one run share a single
transaction-id/reservation-id pair, but both identifiers are the locally
hardcoded constants "0095562596" and "6422380568" — they are not produced by
the payment step nor provided by the external site. -/
theorem shared_ids_hardcoded (env : RunEnv) (cfg : AppConfig) (t : TicketData)
    (h : t ∈ (executeBooking env cfg).tickets) :
    t.transactionId = "0095562596" ∧ t.pnrNumber = "6422380568" ∧
    ∀ u ∈ (executeBooking env cfg).tickets,
      u.transactionId = t.transactionId ∧ u.pnrNumber = t.pnrNumber := by
  rw [executeBooking_tickets] at h
  rcases runBody_tickets env cfg with he | he
  · rw [he] at h
    simp at h
  · rw [he] at h
    have ht := mem_generateTickets_ids cfg.journey t h
    refine ⟨ht.1, ht.2, ?_⟩
    intro u hu
    rw [executeBooking_tickets, he] at hu
    have hu2 := mem_generateTickets_ids cfg.journey u hu
    exact ⟨hu2.1.trans ht.1.symm, hu2.2.trans ht.2.symm⟩

/-- C6 amended witness: the first demo ticket is in the successful run's
output and carries the hardcoded pair. -/
theorem shared_ids_hardcoded_witness :
    demoTicket ∈ (executeBooking envSiteX demoConfig).tickets ∧
    demoTicket.transactionId = "0095562596" ∧
    demoTicket.pnrNumber = "6422380568" := by
  have hm : demoTicket ∈ (executeBooking envSiteX demoConfig).tickets := by decide
  have h := shared_ids_hardcoded envSiteX demoConfig demoTicket hm
  exact ⟨hm, h.1, h.2.1⟩

/-! ## Structural lemmas about the run trace -/

lemma runDriverSteps_error (env : RunEnv) :
    ∀ (l : List Step) (tr : List Event) (s : Step),
      runDriverSteps env l = (tr, .error s) →
      ∃ l1 l2, l = l1 ++ s :: l2 ∧
        tr = l1.map Event.stepDone ++ [Event.stepFailed s] ∧
        (∀ t ∈ l1, env.stepOk t = true) ∧ env.stepOk s = false := by
  intro l
  induction l with
  | nil =>
    intro tr s h
    rw [runDriverSteps] at h
    injection h with h1 h2
    simp at h2
  | cons s0 rest ih =>
    intro tr s h
    by_cases h0 : env.stepOk s0
    · rw [runDriverSteps, if_pos h0] at h
      dsimp only at h
      injection h with h1 h2
      obtain ⟨l1, l2, hl, htr, hall, hsbad⟩ :=
        ih (runDriverSteps env rest).1 s (by rw [← h2])
      refine ⟨s0 :: l1, l2, by rw [List.cons_append, ← hl], ?_, ?_, hsbad⟩
      · rw [← h1, htr]
        simp
      · intro t ht
        rcases List.mem_cons.mp ht with rfl | ht'
        · exact h0
        · exact hall t ht'
    · rw [runDriverSteps, if_neg h0] at h
      injection h with h1 h2
      obtain rfl : s0 = s := by
        injection h2
      exact ⟨[], rest, rfl, h1.symm, by simp, by simpa using h0⟩

lemma runDriverSteps_all_ok (env : RunEnv) :
    ∀ (l : List Step), (∀ t ∈ l, env.stepOk t = true) →
      runDriverSteps env l = (l.map Event.stepDone, .ok ()) := by
  intro l
  induction l with
  | nil => intro _; rfl
  | cons s0 rest ih =>
    intro hall
    rw [runDriverSteps, if_pos (hall s0 (List.mem_cons_self s0 rest)),
      ih (fun t ht => hall t (List.mem_cons_of_mem s0 ht))]
    simp

lemma runDriverSteps_ok (env : RunEnv) :
    ∀ (l : List Step) (tr : List Event) (u : Unit),
      runDriverSteps env l = (tr, .ok u) →
      tr = l.map Event.stepDone ∧ ∀ t ∈ l, env.stepOk t = true := by
  intro l
  induction l with
  | nil =>
    intro tr u h
    rw [runDriverSteps] at h
    injection h with h1 h2
    exact ⟨h1.symm, by simp⟩
  | cons s0 rest ih =>
    intro tr u h
    by_cases h0 : env.stepOk s0
    · rw [runDriverSteps, if_pos h0] at h
      dsimp only at h
      injection h with h1 h2
      obtain ⟨htr, hall⟩ := ih (runDriverSteps env rest).1 u (by rw [← h2])
      refine ⟨by rw [← h1, htr]; simp, ?_⟩
      intro t ht
      rcases List.mem_cons.mp ht with rfl | ht'
      · exact h0
      · exact hall t ht'
    · rw [runDriverSteps, if_neg h0] at h
      injection h with h1 h2
      simp at h2

lemma driver_events_kind (env : RunEnv) :
    ∀ (l : List Step), ∀ e ∈ (runDriverSteps env l).1, isStepEvent e = true := by
  intro l
  induction l with
  | nil => intro e he; simp [runDriverSteps] at he
  | cons s0 rest ih =>
    intro e he
    by_cases h0 : env.stepOk s0
    · rw [runDriverSteps, if_pos h0] at he
      rcases List.mem_cons.mp he with rfl | he'
      · rfl
      · exact ih e he'
    · rw [runDriverSteps, if_neg h0] at he
      rcases List.mem_cons.mp he with rfl | he'
      · rfl
      · simp at he'

lemma gen_events_kind (gen : TicketData → Except String String) :
    ∀ (ts : List TicketData), ∀ e ∈ (generateMultipleTickets gen ts).2, isGenEvent e = true := by
  intro ts
  induction ts with
  | nil => intro e he; simp [generateMultipleTickets] at he
  | cons t rest ih =>
    intro e he
    cases hg : gen t <;> rw [generateMultipleTickets, hg] at he <;>
      rcases List.mem_cons.mp he with rfl | he' <;>
      first
        | rfl
        | (rcases List.mem_cons.mp he' with rfl | he'' <;> first | rfl | exact ih e he'')

lemma send_events_kind (send : String → Except String Unit) :
    ∀ (ps : List Passenger), ∀ e ∈ sendMultipleNotifications send ps, isNotifyEvent e = true := by
  intro ps
  induction ps with
  | nil => intro e he; simp [sendMultipleNotifications] at he
  | cons p rest ih =>
    intro e he
    cases hs : send p.name <;> rw [sendMultipleNotifications, hs] at he <;>
      rcases List.mem_append.mp he with he' | he'' <;>
      first
        | exact ih e (by assumption)
        | (rcases List.mem_cons.mp he' with rfl | h2 <;>
            first | rfl | (rcases List.mem_cons.mp h2 with rfl | h3 <;> first | rfl | simp at h3))

lemma closeB_events (bs : BState) (b : Bool) :
    (closeB bs b).2 = [Event.browserClosed] ∨
    (closeB bs b).2 = [Event.closeErrorLogged] ∨
    (closeB bs b).2 = [] := by
  obtain ⟨br, pg⟩ := bs
  cases br <;> cases b <;> simp [closeB]

lemma count_zero_of_all_kind {l : List Event} {p : Event → Bool}
    (hk : ∀ e ∈ l, p e = true) {e : Event} (he : p e = false) : l.count e = 0 := by
  rw [List.count_eq_zero]
  intro hmem
  rw [hk e hmem] at he
  cases he

/-- The steps reported done by a trace, in order. -/
def doneSteps (l : List Event) : List Step :=
  l.filterMap fun e =>
    match e with
    | .stepDone u => some u
    | _ => none

/-- The steps reported failed by a trace, in order. -/
def failedSteps (l : List Event) : List Step :=
  l.filterMap fun e =>
    match e with
    | .stepFailed u => some u
    | _ => none

lemma count_stepDone_eq (l : List Event) (t : Step) :
    l.count (Event.stepDone t) = (doneSteps l).count t := by
  unfold doneSteps
  induction l with
  | nil => rfl
  | cons e rest ih =>
    rw [List.filterMap_cons]
    cases e <;> simp [List.count_cons, beq_iff_eq, ih]

lemma count_stepFailed_eq (l : List Event) (t : Step) :
    l.count (Event.stepFailed t) = (failedSteps l).count t := by
  unfold failedSteps
  induction l with
  | nil => rfl
  | cons e rest ih =>
    rw [List.filterMap_cons]
    cases e <;> simp [List.count_cons, beq_iff_eq, ih]

lemma doneSteps_map_stepDone (l : List Step) : doneSteps (l.map Event.stepDone) = l := by
  unfold doneSteps
  induction l with
  | nil => rfl
  | cons s rest ih =>
    rw [List.map_cons, List.filterMap_cons]
    simpa using ih

lemma failedSteps_map_stepDone (l : List Step) : failedSteps (l.map Event.stepDone) = [] := by
  unfold failedSteps
  induction l with
  | nil => rfl
  | cons s rest ih =>
    rw [List.map_cons, List.filterMap_cons]
    simp [ih]

lemma steps_of_gen_nil (gen : TicketData → Except String String) (ts : List TicketData) :
    doneSteps (generateMultipleTickets gen ts).2 = [] ∧
    failedSteps (generateMultipleTickets gen ts).2 = [] := by
  constructor
  · rw [doneSteps, List.filterMap_eq_nil_iff]
    intro e he
    have := gen_events_kind gen ts e he
    cases e <;> simp [isGenEvent] at this ⊢
  · rw [failedSteps, List.filterMap_eq_nil_iff]
    intro e he
    have := gen_events_kind gen ts e he
    cases e <;> simp [isGenEvent] at this ⊢

lemma steps_of_send_nil (send : String → Except String Unit) (ps : List Passenger) :
    doneSteps (sendMultipleNotifications send ps) = [] ∧
    failedSteps (sendMultipleNotifications send ps) = [] := by
  constructor
  · rw [doneSteps, List.filterMap_eq_nil_iff]
    intro e he
    have := send_events_kind send ps e he
    cases e <;> simp [isNotifyEvent] at this ⊢
  · rw [failedSteps, List.filterMap_eq_nil_iff]
    intro e he
    have := send_events_kind send ps e he
    cases e <;> simp [isNotifyEvent] at this ⊢

lemma closeInvoked_not_in_gen (gen : TicketData → Except String String)
    (ts : List TicketData) :
    Event.closeInvoked ∉ (generateMultipleTickets gen ts).2 := by
  intro h
  have := gen_events_kind gen ts _ h
  simp [isGenEvent] at this

lemma closeInvoked_not_in_send (send : String → Except String Unit)
    (ps : List Passenger) :
    Event.closeInvoked ∉ sendMultipleNotifications send ps := by
  intro h
  have := send_events_kind send ps _ h
  simp [isNotifyEvent] at this

lemma doneSteps_append (a b : List Event) :
    doneSteps (a ++ b) = doneSteps a ++ doneSteps b := by
  unfold doneSteps
  rw [List.filterMap_append]

lemma failedSteps_append (a b : List Event) :
    failedSteps (a ++ b) = failedSteps a ++ failedSteps b := by
  unfold failedSteps
  rw [List.filterMap_append]

lemma doneSteps_cons_done (s : Step) (l : List Event) :
    doneSteps (Event.stepDone s :: l) = s :: doneSteps l := by
  unfold doneSteps
  rw [List.filterMap_cons]

lemma doneSteps_cons_failed (s : Step) (l : List Event) :
    doneSteps (Event.stepFailed s :: l) = doneSteps l := by
  unfold doneSteps
  rw [List.filterMap_cons]

lemma failedSteps_cons_done (s : Step) (l : List Event) :
    failedSteps (Event.stepDone s :: l) = failedSteps l := by
  unfold failedSteps
  rw [List.filterMap_cons]

lemma failedSteps_cons_failed (s : Step) (l : List Event) :
    failedSteps (Event.stepFailed s :: l) = s :: failedSteps l := by
  unfold failedSteps
  rw [List.filterMap_cons]

lemma body_counts (env : RunEnv) (cfg : AppConfig) (t : Step) :
    (runBody env cfg).trace.count Event.closeInvoked = 0 ∧
    (runBody env cfg).trace.count (Event.stepDone t)
      + (runBody env cfg).trace.count (Event.stepFailed t) ≤ 1 := by
  have hkey : ∀ l : List Event,
      (doneSteps l ++ failedSteps l).Nodup →
      l.count (Event.stepDone t) + l.count (Event.stepFailed t) ≤ 1 := by
    intro l hnd
    rw [count_stepDone_eq, count_stepFailed_eq, ← List.count_append]
    exact List.nodup_iff_count_le_one.mp hnd t
  cases hb : env.stepOk Step.initStep with
  | false =>
    have htr : (runBody env cfg).trace = [Event.stepFailed Step.initStep] := by
      simp [runBody, hb]
    rw [htr]
    exact ⟨by decide, hkey _ (by decide)⟩
  | true =>
    rcases hdr : runDriverSteps env driverSteps with ⟨tr, res⟩
    cases res with
    | error s =>
      obtain ⟨l1, l2, hl, htr2, hall, hbad⟩ := runDriverSteps_error env driverSteps tr s hdr
      have htr : (runBody env cfg).trace = Event.stepDone Step.initStep :: tr := by
        simp [runBody, hb, hdr]
      rw [htr, htr2]
      constructor
      · rw [List.count_eq_zero]
        simp
      · apply hkey
        have hnd0 : (Step.initStep :: driverSteps).Nodup := by decide
        rw [hl] at hnd0
        have hsub : List.Sublist (Step.initStep :: (l1 ++ [s]))
            (Step.initStep :: (l1 ++ s :: l2)) :=
          List.Sublist.cons₂ _
            (List.Sublist.append_left (List.Sublist.cons₂ _ (List.nil_sublist l2)) l1)
        have hnd1 : (Step.initStep :: (l1 ++ [s])).Nodup := hnd0.sublist hsub
        simp only [doneSteps_cons_done, doneSteps_append, doneSteps_map_stepDone,
          failedSteps_cons_done, failedSteps_append, failedSteps_map_stepDone]
        have hsing : doneSteps [Event.stepFailed s] = [] := rfl
        have hsing2 : failedSteps [Event.stepFailed s] = [s] := rfl
        rw [hsing, hsing2, List.append_nil]
        simpa using hnd1
    | ok u =>
      obtain ⟨htr2, hall⟩ := runDriverSteps_ok env driverSteps tr u hdr
      subst htr2
      cases hnp : env.stepOk Step.newPageStep with
      | false =>
        have htr : (runBody env cfg).trace = Event.stepDone Step.initStep ::
            (driverSteps.map Event.stepDone
              ++ (generateMultipleTickets env.gen (generateTickets cfg.journey)).2
              ++ [Event.stepFailed Step.newPageStep]) := by
          simp [runBody, hb, hdr, hnp]
        rw [htr]
        constructor
        · rw [List.count_eq_zero]
          intro hmem
          rcases List.mem_cons.mp hmem with h | h
          · simp at h
          · rcases List.mem_append.mp h with h2 | h2
            · rcases List.mem_append.mp h2 with h3 | h3
              · simp at h3
              · exact closeInvoked_not_in_gen _ _ h3
            · simp at h2
        · apply hkey
          simp only [doneSteps_cons_done, doneSteps_append, doneSteps_map_stepDone,
            failedSteps_cons_done, failedSteps_append, failedSteps_map_stepDone,
            (steps_of_gen_nil env.gen (generateTickets cfg.journey)).1,
            (steps_of_gen_nil env.gen (generateTickets cfg.journey)).2]
          have hsing : doneSteps [Event.stepFailed Step.newPageStep] = [] := rfl
          have hsing2 : failedSteps [Event.stepFailed Step.newPageStep] = [Step.newPageStep] := rfl
          rw [hsing, hsing2]
          decide
      | true =>
        have htr : (runBody env cfg).trace = Event.stepDone Step.initStep ::
            (driverSteps.map Event.stepDone
              ++ (generateMultipleTickets env.gen (generateTickets cfg.journey)).2
              ++ Event.stepDone Step.newPageStep ::
                  sendMultipleNotifications env.send cfg.journey.passengers) := by
          simp [runBody, hb, hdr, hnp]
        rw [htr]
        constructor
        · rw [List.count_eq_zero]
          intro hmem
          rcases List.mem_cons.mp hmem with h | h
          · simp at h
          · rcases List.mem_append.mp h with h2 | h2
            · rcases List.mem_append.mp h2 with h3 | h3
              · simp at h3
              · exact closeInvoked_not_in_gen _ _ h3
            · rcases List.mem_cons.mp h2 with h3 | h3
              · simp at h3
              · exact closeInvoked_not_in_send _ _ h3
        · apply hkey
          simp only [doneSteps_cons_done, doneSteps_append, doneSteps_map_stepDone,
            failedSteps_cons_done, failedSteps_append, failedSteps_map_stepDone,
            (steps_of_gen_nil env.gen (generateTickets cfg.journey)).1,
            (steps_of_gen_nil env.gen (generateTickets cfg.journey)).2,
            (steps_of_send_nil env.send cfg.journey.passengers).1,
            (steps_of_send_nil env.send cfg.journey.passengers).2]
          decide

lemma closeInvoked_count_run (env : RunEnv) (cfg : AppConfig) :
    (executeBooking env cfg).trace.count Event.closeInvoked = 1 := by
  have hsh : (executeBooking env cfg).trace
      = (runBody env cfg).trace
        ++ Event.closeInvoked :: (closeB (runBody env cfg).bstate env.closeOk).2 := rfl
  rw [hsh, List.count_append, (body_counts env cfg Step.initStep).1]
  rcases closeB_events (runBody env cfg).bstate env.closeOk with h | h | h <;> rw [h] <;> decide

lemma step_event_count (env : RunEnv) (cfg : AppConfig) (t : Step) :
    (executeBooking env cfg).trace.count (Event.stepDone t)
      + (executeBooking env cfg).trace.count (Event.stepFailed t) ≤ 1 := by
  have hsh : (executeBooking env cfg).trace
      = (runBody env cfg).trace
        ++ Event.closeInvoked :: (closeB (runBody env cfg).bstate env.closeOk).2 := rfl
  rw [hsh, List.count_append, List.count_append]
  have h0 : (Event.closeInvoked :: (closeB (runBody env cfg).bstate env.closeOk).2).count
      (Event.stepDone t) = 0 := by
    rw [List.count_eq_zero]
    rcases closeB_events (runBody env cfg).bstate env.closeOk with h | h | h <;> rw [h] <;> simp
  have h1 : (Event.closeInvoked :: (closeB (runBody env cfg).bstate env.closeOk).2).count
      (Event.stepFailed t) = 0 := by
    rw [List.count_eq_zero]
    rcases closeB_events (runBody env cfg).bstate env.closeOk with h | h | h <;> rw [h] <;> simp
  rw [h0, h1]
  have := (body_counts env cfg t).2
  omega

/-- C2: teardown is invoked exactly once on every exit path of
`executeBooking` (the trace of every run — success, step failure or
initialization failure — contains exactly one `close` invocation); `close`
is idempotent (after a completed teardown a second call is a no-op, and
re-closing never changes the settled state); and `close` swallows teardown
errors — it logs them and returns normally, so the run's outcome is always
exactly the body's outcome, never masked by teardown. -/
theorem teardown_once_idempotent_swallow (env : RunEnv) (cfg : AppConfig) :
    (executeBooking env cfg).trace.count Event.closeInvoked = 1 ∧
    (∀ (s : BState) (ok : Bool), (closeB (closeB s ok).1 ok).1 = (closeB s ok).1) ∧
    (∀ (s : BState) (ok2 : Bool), closeB (closeB s true).1 ok2 = ((closeB s true).1, [])) ∧
    (executeBooking env cfg).result = (runBody env cfg).result ∧
    (∀ s : BState, s.browser = true → closeB s false = (s, [Event.closeErrorLogged])) := by
  refine ⟨closeInvoked_count_run env cfg, ?_, ?_, rfl, ?_⟩
  · intro s ok
    obtain ⟨br, pg⟩ := s
    cases br <;> cases pg <;> cases ok <;> rfl
  · intro s ok2
    obtain ⟨br, pg⟩ := s
    cases br <;> cases pg <;> cases ok2 <;> rfl
  · intro s h
    obtain ⟨br, pg⟩ := s
    cases br
    · cases h
    · rfl

/-- C2 witness: a concrete run has exactly one teardown invocation, and a
live session whose engine-level close fails is logged and swallowed. -/
theorem teardown_once_idempotent_swallow_witness :
    (executeBooking envSiteX demoConfig).trace.count Event.closeInvoked = 1 ∧
    closeB { browser := true, page := true } false
      = ({ browser := true, page := true }, [Event.closeErrorLogged]) := by
  have h := teardown_once_idempotent_swallow envSiteX demoConfig
  exact ⟨h.1, h.2.2.2.2 { browser := true, page := true } rfl⟩

lemma all_ok_result (env : RunEnv) (cfg : AppConfig)
    (h : ∀ s, env.stepOk s = true) : (executeBooking env cfg).result = .ok () := by
  have hdr := runDriverSteps_all_ok env driverSteps (fun t _ => h t)
  have hres : (runBody env cfg).result = .ok () := by
    simp [runBody, h Step.initStep, hdr, h Step.newPageStep]
  exact hres

/-- C5: the process exit status is zero precisely when `executeBooking`
completes: a completed run exits 0 even if *every* per-item artifact
generation and notification dispatch failed (all whole steps succeeding is
enough, whatever `gen`/`send` do), while a configuration-load failure or any
propagated step error exits 1. -/
theorem exit_status_policy (osEnv : OsEnv) (env : RunEnv) :
    (∀ cfg, loadConfig osEnv = .ok cfg →
      ((executeBooking env cfg).result = .ok () → mainExit osEnv env = 0) ∧
      (∀ s, (executeBooking env cfg).result = .error s → mainExit osEnv env = 1)) ∧
    ((∀ s, env.stepOk s = true) →
      ∀ cfg, loadConfig osEnv = .ok cfg → mainExit osEnv env = 0) ∧
    (∀ msg, loadConfig osEnv = .error msg → mainExit osEnv env = 1) := by
  refine ⟨?_, ?_, ?_⟩
  · intro cfg hcfg
    constructor
    · intro hok
      simp [mainExit, hcfg, hok]
    · intro s herr
      simp [mainExit, hcfg, herr]
  · intro hall cfg hcfg
    simp [mainExit, hcfg, all_ok_result env cfg hall]
  · intro msg hmsg
    simp [mainExit, hmsg]

/-- C5 witness: with every required variable set and every whole step
succeeding, a run in which every per-item artifact generation and every
notification dispatch fails still exits 0. -/
theorem exit_status_policy_witness : mainExit osEnvDemo envItemFail = 0 :=
  (exit_status_policy osEnvDemo envItemFail).2.1 (fun _ => rfl) _ rfl

/-- C8: each manual-checkpoint pause is a fixed-duration wait — the login
step contains exactly one wait, of 10000 ms, placed immediately before the
credential-submit click, and the payment step exactly one wait, of 15000 ms,
before its first click; a wait's duration is its argument under *every*
assignment of durations to the other actions (it reads no input and no page
condition), so at least the configured duration elapses before the following
activation; and each of the two steps runs at most once per run. -/
theorem manual_checkpoint_pauses (userId password : String)
    (other : UIAction → Nat) (env : RunEnv) (cfg : AppConfig) :
    waitsOf (loginActions userId password) = [10000] ∧
    (loginActions userId password).get? 4 = some (.waitMs 10000) ∧
    (loginActions userId password).get? 5 = some (.click ".search_btn.train_Search") ∧
    10000 ≤ elapsedBefore other (loginActions userId password) 5 ∧
    waitsOf proceedActions = [15000] ∧
    proceedActions.get? 0 = some (.waitMs 15000) ∧
    proceedActions.get? 1 = some (.click ".train_Search.btnDefault") ∧
    15000 ≤ elapsedBefore other proceedActions 1 ∧
    (∀ n, actionTime other (.waitMs n) = n) ∧
    (executeBooking env cfg).trace.count (Event.stepDone .loginStep)
      + (executeBooking env cfg).trace.count (Event.stepFailed .loginStep) ≤ 1 ∧
    (executeBooking env cfg).trace.count (Event.stepDone .proceedPaymentStep)
      + (executeBooking env cfg).trace.count (Event.stepFailed .proceedPaymentStep) ≤ 1 := by
  refine ⟨rfl, rfl, rfl, ?_, rfl, rfl, rfl, ?_, fun n => rfl,
    step_event_count env cfg .loginStep, step_event_count env cfg .proceedPaymentStep⟩
  · simp [elapsedBefore, loginActions, actionTime]
    omega
  · simp [elapsedBefore, proceedActions, actionTime]

lemma kind_exclusive (e : Event) (h : isStepEvent e = true) :
    isGenEvent e = false ∧ isNotifyEvent e = false := by
  cases e <;> simp [isStepEvent, isGenEvent, isNotifyEvent] at h ⊢

lemma closeB_kind (bs : BState) (b : Bool) (e : Event) (h : e ∈ (closeB bs b).2) :
    isGenEvent e = false ∧ isNotifyEvent e = false ∧ (∀ t, e ≠ Event.stepDone t) := by
  rcases closeB_events bs b with hc | hc | hc <;> rw [hc] at h <;> simp at h
  · subst h
    exact ⟨rfl, rfl, fun t => by simp⟩
  · subst h
    exact ⟨rfl, rfl, fun t => by simp⟩

/-- C3: whenever a run fails at any step from session open through payment
submission (the fail-fast range), the run aborts immediately: the trace
contains no artifact-batch and no notification-batch event, no step at or
beyond the failing step is reported done, no step runs twice (no retry), no
tickets and no files are produced, the error is the run's propagated result
(hypothesis), and teardown is still invoked exactly once. -/
theorem fail_fast_aborts_run (env : RunEnv) (cfg : AppConfig) (s : Step)
    (hs : s ∈ failFastSteps)
    (hres : (executeBooking env cfg).result = .error s) :
    (∀ e ∈ (executeBooking env cfg).trace, isGenEvent e = false ∧ isNotifyEvent e = false) ∧
    (∀ t, Event.stepDone t ∈ (executeBooking env cfg).trace → stepIdx t < stepIdx s) ∧
    (∀ t, (executeBooking env cfg).trace.count (Event.stepDone t)
        + (executeBooking env cfg).trace.count (Event.stepFailed t) ≤ 1) ∧
    (executeBooking env cfg).tickets = [] ∧
    (executeBooking env cfg).files = [] ∧
    (executeBooking env cfg).trace.count Event.closeInvoked = 1 := by
  have hres' : (runBody env cfg).result = .error s := hres
  have hbody : (∀ e ∈ (runBody env cfg).trace, isStepEvent e = true) ∧
      (∀ t, Event.stepDone t ∈ (runBody env cfg).trace → stepIdx t < stepIdx s) ∧
      (runBody env cfg).tickets = [] ∧ (runBody env cfg).files = [] := by
    cases hb : env.stepOk Step.initStep with
    | false =>
      have hofs : (runBody env cfg).result = .error Step.initStep := by simp [runBody, hb]
      rw [hres'] at hofs
      injection hofs with hofs2
      subst hofs2
      have htr : (runBody env cfg).trace = [Event.stepFailed Step.initStep] := by
        simp [runBody, hb]
      refine ⟨?_, ?_, by simp [runBody, hb], by simp [runBody, hb]⟩
      · intro e he
        rw [htr] at he
        simp at he
        subst he
        rfl
      · intro t ht
        rw [htr] at ht
        simp at ht
    | true =>
      rcases hdr : runDriverSteps env driverSteps with ⟨tr, res⟩
      cases res with
      | error sf =>
        obtain ⟨l1, l2, hl, htr2, hall, hbad⟩ := runDriverSteps_error env driverSteps tr sf hdr
        have hofs : (runBody env cfg).result = .error sf := by simp [runBody, hb, hdr]
        rw [hres'] at hofs
        injection hofs with hofs2
        subst hofs2
        have htr : (runBody env cfg).trace = Event.stepDone Step.initStep :: tr := by
          simp [runBody, hb, hdr]
        have hsmem : s ∈ driverSteps := by
          rw [hl]
          exact List.mem_append_right l1 (List.mem_cons_self s l2)
        refine ⟨?_, ?_, by simp [runBody, hb, hdr], by simp [runBody, hb, hdr]⟩
        · intro e he
          rw [htr, htr2] at he
          rcases List.mem_cons.mp he with rfl | he2
          · rfl
          · rcases List.mem_append.mp he2 with he3 | he3
            · obtain ⟨u, _, rfl⟩ := List.mem_map.mp he3
              rfl
            · simp at he3
              subst he3
              rfl
        · intro t ht
          rw [htr, htr2] at ht
          rcases List.mem_cons.mp ht with hh | ht2
          · injection hh with hh2
            subst hh2
            have h2 : ∀ x ∈ driverSteps, 2 ≤ stepIdx x := by decide
            have h3 := h2 s hsmem
            have h4 : stepIdx Step.initStep = 1 := rfl
            omega
          · rcases List.mem_append.mp ht2 with ht3 | ht3
            · obtain ⟨u, hu, hue⟩ := List.mem_map.mp ht3
              injection hue with hue2
              have hu2 : t ∈ l1 := hue2 ▸ hu
              have hpw : driverSteps.Pairwise (fun a b => stepIdx a < stepIdx b) := by decide
              rw [hl] at hpw
              exact (List.pairwise_append.mp hpw).2.2 t hu2 s (List.mem_cons_self s l2)
            · simp at ht3
      | ok u =>
        cases hnp : env.stepOk Step.newPageStep with
        | false =>
          have hofs : (runBody env cfg).result = .error Step.newPageStep := by
            simp [runBody, hb, hdr, hnp]
          rw [hres'] at hofs
          injection hofs with hofs2
          subst hofs2
          exact absurd hs (by decide)
        | true =>
          have hofs : (runBody env cfg).result = .ok () := by
            simp [runBody, hb, hdr, hnp]
          rw [hres'] at hofs
          simp at hofs
  refine ⟨?_, ?_, fun t => step_event_count env cfg t,
    hbody.2.2.1, hbody.2.2.2, closeInvoked_count_run env cfg⟩
  · intro e he
    rcases List.mem_append.mp he with he1 | he1
    · exact kind_exclusive e (hbody.1 e he1)
    · rcases List.mem_cons.mp he1 with rfl | he2
      · exact ⟨rfl, rfl⟩
      · exact ⟨(closeB_kind _ _ e he2).1, (closeB_kind _ _ e he2).2.1⟩
  · intro t ht
    rcases List.mem_append.mp ht with ht1 | ht1
    · exact hbody.2.1 t ht1
    · rcases List.mem_cons.mp ht1 with hh | ht2
      · cases hh
      · exact absurd rfl ((closeB_kind _ _ _ ht2).2.2 t)

/-- C3 witness: in a concrete run whose login step fails, the propagated
result is that error, and no artifact event appears in the trace. -/
theorem fail_fast_aborts_run_witness :
    Step.loginStep ∈ failFastSteps ∧
    (executeBooking envFailLogin demoConfig).result = .error Step.loginStep ∧
    (∀ e ∈ (executeBooking envFailLogin demoConfig).trace,
      isGenEvent e = false ∧ isNotifyEvent e = false) ∧
    (executeBooking envFailLogin demoConfig).tickets = [] := by
  have h := fail_fast_aborts_run envFailLogin demoConfig Step.loginStep (by decide) rfl
  exact ⟨by decide, rfl, h.1, h.2.2.2.1⟩

end Tatkal
